import Mathlib

/-!
Shallow embedding of the `lis3dsh` accelerometer driver
(`src/register.rs`, `src/commbus/spi.rs`, `src/lib.rs`).

Machine integers (`u8`, `u16`) are modelled as `Nat` with explicit `% 256`
(resp. `% 65536`) where overflow matters; `i16` reinterpretation is
explicit (`asI16`).  Fallible operations return `Except`.  The SPI
transport and chip-select pin are modelled by a mock (`MockSpi`) whose
scripted results drive the exact control flow of `SPIBus`; each operation
additionally returns the trace of transport/pin calls it performed, so
that chip-select framing and transaction ordering are provable facts.
-/

set_option maxRecDepth 100000

namespace LIS3DSH

/-- Device registers, from `src/register.rs` (`enum Register`). -/
inductive Register where
  | OUT_T | INFO1 | INFO2 | WHOAMI
  | OFF_X | OFF_Y | OFF_Z
  | CS_X | CS_Y | CS_Z
  | LC_L | LC_H
  | STAT
  | CTRL_REG4 | CTRL_REG1 | CTRL_REG2 | CTRL_REG3 | CTRL_REG5 | CTRL_REG6
  | STATUS
  | OUT_X_L | OUT_X_H | OUT_Y_L | OUT_Y_H | OUT_Z_L | OUT_Z_H
deriving DecidableEq, Fintype, Repr

/-- Register discriminant values (`Register as u8`). -/
def Register.addr : Register → Nat
  | .OUT_T => 0x0C
  | .INFO1 => 0x0D
  | .INFO2 => 0x0E
  | .WHOAMI => 0x0F
  | .OFF_X => 0x10
  | .OFF_Y => 0x11
  | .OFF_Z => 0x12
  | .CS_X => 0x13
  | .CS_Y => 0x14
  | .CS_Z => 0x15
  | .LC_L => 0x16
  | .LC_H => 0x17
  | .STAT => 0x18
  | .CTRL_REG4 => 0x20
  | .CTRL_REG1 => 0x21
  | .CTRL_REG2 => 0x22
  | .CTRL_REG3 => 0x23
  | .CTRL_REG5 => 0x24
  | .CTRL_REG6 => 0x26
  | .STATUS => 0x27
  | .OUT_X_L => 0x28
  | .OUT_X_H => 0x29
  | .OUT_Y_L => 0x2A
  | .OUT_Y_H => 0x2B
  | .OUT_Z_L => 0x2C
  | .OUT_Z_H => 0x2D

/-- `Register::read(self) -> u8 { self as u8 | 0x01 << 7 }`. -/
def Register.read (r : Register) : Nat := r.addr ||| (0x01 <<< 7)

/-- `Register::write(self) -> u8 { self as u8 & 0b01111111 }`. -/
def Register.write (r : Register) : Nat := r.addr &&& 0b01111111

/-- Full-scale selection (`enum Range` in `src/register.rs`). -/
inductive Range where
  | G16 | G8 | G6 | G4 | G2
deriving DecidableEq, Fintype, Repr

/-- `Range` discriminants (`Range::bits`). -/
def Range.bits : Range → Nat
  | .G16 => 0b100
  | .G8 => 0b011
  | .G6 => 0b010
  | .G4 => 0b001
  | .G2 => 0b000

/-- `num_enum::TryFromPrimitive` for `Range`: inverts the discriminant
assignment, `none` outside the documented codes. -/
def rangeTryFrom (c : Nat) : Option Range :=
  if c = 0b100 then some .G16
  else if c = 0b011 then some .G8
  else if c = 0b010 then some .G6
  else if c = 0b001 then some .G4
  else if c = 0b000 then some .G2
  else none

/-- Output data rate (`enum DataRate` in `src/register.rs`). -/
inductive DataRate where
  | Hz_1600 | Hz_800 | Hz_400 | Hz_100 | Hz_50 | Hz_25
  | Hz_12 | Hz_6 | Hz_3 | PowerDown
deriving DecidableEq, Fintype, Repr

/-- `DataRate` discriminants (`DataRate::bits`). -/
def DataRate.bits : DataRate → Nat
  | .Hz_1600 => 0b1001
  | .Hz_800 => 0b1000
  | .Hz_400 => 0b0111
  | .Hz_100 => 0b0110
  | .Hz_50 => 0b0101
  | .Hz_25 => 0b0100
  | .Hz_12 => 0b0011
  | .Hz_6 => 0b0010
  | .Hz_3 => 0b0001
  | .PowerDown => 0b0000

/-- `num_enum::TryFromPrimitive` for `DataRate`. -/
def dataRateTryFrom (c : Nat) : Option DataRate :=
  if c = 0b1001 then some .Hz_1600
  else if c = 0b1000 then some .Hz_800
  else if c = 0b0111 then some .Hz_400
  else if c = 0b0110 then some .Hz_100
  else if c = 0b0101 then some .Hz_50
  else if c = 0b0100 then some .Hz_25
  else if c = 0b0011 then some .Hz_12
  else if c = 0b0010 then some .Hz_6
  else if c = 0b0001 then some .Hz_3
  else if c = 0b0000 then some .PowerDown
  else none

/-- Driver error type (`enum Error<E, PinError>` in `src/lib.rs`). -/
inductive Error (E P : Type) where
  | CommErr (e : E)
  | PinError (p : P)
  | InvalidDataRate
  | InvalidMode
  | InvalidRange
  | WriteToReadOnly
  | WrongAddress
  | NotImplemented
deriving DecidableEq

/-- Constants from `src/register.rs`. -/
def DEVICE_ID : Nat := 63
def ODR_MASK : Nat := 0b11110000
def ODR_OFFSET : Nat := 4
def BDU : Nat := 0b00001000
def Z_EN : Nat := 0b00000100
def Y_EN : Nat := 0b00000010
def X_EN : Nat := 0b00000001
def FS_MASK : Nat := 0b00111000
def FS_OFFSET : Nat := 3
def STRESET : Nat := 0b1

/-- `u8` bitwise complement `!m` as used in `v &= !MASK`. -/
def notU8 (m : Nat) : Nat := 255 ^^^ m

/-! ## SPI transport layer (`src/commbus/spi.rs`)

`MockSpi` scripts the outcome of each collaborator call of one
transaction: the chip-select pin (`set_low` / `set_high`, `none` = `Ok`)
and the SPI peripheral (`write` / `transfer`), plus the bytes the device
shifts out during a `transfer`. -/

structure MockSpi (E P : Type) where
  setLowResult : Option P
  setHighResult : Option P
  writeResult : Option E
  transferResult : Option E
  transferData : List Nat

/-- One transport / pin call made during a transaction. -/
inductive SpiEv where
  | setLow
  | setHigh
  | spiWrite (data : List Nat)
  | spiTransfer (data : List Nat)
deriving DecidableEq, Repr

/-- Count occurrences of an event in a trace. -/
def countOf (e : SpiEv) : List SpiEv → Nat
  | [] => 0
  | a :: rest => (if a = e then 1 else 0) + countOf e rest

/-- The buffer a successful `spi.transfer(buf)` hands back: same length as
`buf`, filled from the mock device's outgoing byte stream. -/
def transferResp {E P : Type} (m : MockSpi E P) (buf : List Nat) : List Nat :=
  (List.range buf.length).map (fun i => m.transferData.getD i 0)

namespace SPIBus

/-- `SPIBus::read_bytes`: `cs.set_low()?`, `res = spi.write(&[register])`,
`res2 = spi.transfer(bytes)`, `cs.set_high()?`, then `res?`, `res2?`.
Returns the result and the trace of collaborator calls. -/
def read_bytes {E P : Type} (m : MockSpi E P) (register : Nat) (bytes : List Nat) :
    Except (Error E P) (List Nat) × List SpiEv :=
  match m.setLowResult with
  | some p => (.error (.PinError p), [.setLow])
  | none =>
    let res : Except (Error E P) Unit :=
      match m.writeResult with
      | some e => .error (.CommErr e)
      | none => .ok ()
    let res2 : Except (Error E P) (List Nat) :=
      match m.transferResult with
      | some e => .error (.CommErr e)
      | none => .ok (transferResp m bytes)
    let evs : List SpiEv := [.setLow, .spiWrite [register], .spiTransfer bytes, .setHigh]
    match m.setHighResult with
    | some p => (.error (.PinError p), evs)
    | none =>
      match res with
      | .error e => (.error e, evs)
      | .ok _ =>
        match res2 with
        | .error e => (.error e, evs)
        | .ok r => (.ok r, evs)

/-- `SPIBus::read_register`: `cs.set_low()?`,
`res = spi.transfer(&mut [register, 0])`, `cs.set_high()?`, then
`match res` yielding the second returned byte. -/
def read_register {E P : Type} (m : MockSpi E P) (register : Nat) :
    Except (Error E P) Nat × List SpiEv :=
  match m.setLowResult with
  | some p => (.error (.PinError p), [.setLow])
  | none =>
    let res : Except (Error E P) (List Nat) :=
      match m.transferResult with
      | some e => .error (.CommErr e)
      | none => .ok (transferResp m [register, 0])
    let evs : List SpiEv := [.setLow, .spiTransfer [register, 0], .setHigh]
    match m.setHighResult with
    | some p => (.error (.PinError p), evs)
    | none =>
      match res with
      | .error e => (.error e, evs)
      | .ok r => (.ok (r.getD 1 0), evs)

/-- `SPIBus::write_register`: `cs.set_low()?`,
`res = spi.write(&[register, value])`, `cs.set_high()?`, then `res?`. -/
def write_register {E P : Type} (m : MockSpi E P) (register value : Nat) :
    Except (Error E P) Unit × List SpiEv :=
  match m.setLowResult with
  | some p => (.error (.PinError p), [.setLow])
  | none =>
    let res : Except (Error E P) Unit :=
      match m.writeResult with
      | some e => .error (.CommErr e)
      | none => .ok ()
    let evs : List SpiEv := [.setLow, .spiWrite [register, value], .setHigh]
    match m.setHighResult with
    | some p => (.error (.PinError p), evs)
    | none => (res, evs)

end SPIBus

/-! ## Device controller layer (`src/lib.rs`)

For the controller we use an infallible register-file bus: the device is a
map from 7-bit addresses to byte values.  The bus strips bit 7 of the
command byte (the read/write flag) to locate the cell, mirroring a device
that decodes the address field of every command byte.  Each controller
operation also returns the trace of register transactions (and delays) it
performed. -/

/-- Device register file: byte value per 7-bit address. -/
def Regs : Type := Nat → Nat

/-- Bus read of a command byte against the register file. -/
def regRead (r : Regs) (cmd : Nat) : Nat := r (cmd % 128) % 256

/-- Bus write of a command byte against the register file. -/
def regWrite (r : Regs) (cmd v : Nat) : Regs :=
  fun a => if a = cmd % 128 then v % 256 else r a

/-- One controller-level transaction (or delay). -/
inductive Ev where
  | wr (cmd v : Nat)
  | rd (cmd : Nat)
  | delay (ms : Nat)
deriving DecidableEq, Repr

/-- Transaction shape with the data byte of a write erased (register
access kind, command byte and delay length only). -/
inductive EvKey where
  | wr (cmd : Nat)
  | rd (cmd : Nat)
  | delay (ms : Nat)
deriving DecidableEq, Repr

def Ev.key : Ev → EvKey
  | .wr c _ => .wr c
  | .rd c => .rd c
  | .delay n => .delay n

/-- Whether an `Except` is a success. -/
def exceptOk {ε α : Type} : Except ε α → Bool
  | .ok _ => true
  | .error _ => false

/-- The byte `enable_axis` writes back: `v &= !(X_EN | Y_EN | Z_EN)` then
`v |= X_EN / Y_EN / Z_EN` per requested axis (`src/lib.rs`). -/
def enableAxisByte (v : Nat) (x y z : Bool) : Nat :=
  let v1 := v &&& notU8 (X_EN ||| Y_EN ||| Z_EN)
  let v2 := v1 ||| (if x then X_EN else 0)
  let v3 := v2 ||| (if y then Y_EN else 0)
  v3 ||| (if z then Z_EN else 0)

/-- The byte `set_datarate` writes back: `v &= !ODR_MASK;
v |= datarate.bits() << ODR_OFFSET`. -/
def setDataRateByte (v : Nat) (d : DataRate) : Nat :=
  (v &&& notU8 ODR_MASK) ||| (d.bits <<< ODR_OFFSET)

/-- The byte `set_range` writes back: `ctrl5 &= !FS_MASK;
ctrl5 |= (range.bits() << FS_OFFSET) & FS_MASK; ctrl5 &= !0x1`. -/
def setRangeByte (v : Nat) (rg : Range) : Nat :=
  let v1 := v &&& notU8 FS_MASK
  let v2 := v1 ||| ((rg.bits <<< FS_OFFSET) &&& FS_MASK)
  v2 &&& notU8 1

/-- `LIS3DSH::enable_axis`: read `CTRL_REG4`, rewrite the axis-enable
bits, write it back. -/
def enable_axis (r : Regs) (x y z : Bool) : Regs × List Ev :=
  let v := regRead r Register.CTRL_REG4.read
  let v2 := enableAxisByte v x y z
  (regWrite r Register.CTRL_REG4.write v2,
   [.rd Register.CTRL_REG4.read, .wr Register.CTRL_REG4.write v2])

/-- `LIS3DSH::set_datarate`: read-modify-write of `CTRL_REG4`. -/
def set_datarate (r : Regs) (d : DataRate) : Regs × List Ev :=
  let v := regRead r Register.CTRL_REG4.read
  let v2 := setDataRateByte v d
  (regWrite r Register.CTRL_REG4.write v2,
   [.rd Register.CTRL_REG4.read, .wr Register.CTRL_REG4.write v2])

/-- `LIS3DSH::set_range`: read-modify-write of `CTRL_REG5`. -/
def set_range (r : Regs) (rg : Range) : Regs × List Ev :=
  let v := regRead r Register.CTRL_REG5.read
  let v2 := setRangeByte v rg
  (regWrite r Register.CTRL_REG5.write v2,
   [.rd Register.CTRL_REG5.read, .wr Register.CTRL_REG5.write v2])

/-- `LIS3DSH::get_device_id`: read of `WHOAMI`. -/
def get_device_id (r : Regs) : Nat × List Ev :=
  (regRead r Register.WHOAMI.read, [.rd Register.WHOAMI.read])

/-- `DataRate::try_from(odr).map_err(|_| Error::InvalidDataRate)` as used
in `LIS3DSH::get_datarate` (the spec calls it `codeToDataRate`). -/
def codeToDataRate (c : Nat) : Except (Error Unit Unit) DataRate :=
  match dataRateTryFrom c with
  | some d => .ok d
  | none => .error .InvalidDataRate

/-- `Range::try_from(fs).map_err(|_| Error::InvalidRange)` as used in
`LIS3DSH::get_range` (the spec calls it `codeToRange`). -/
def codeToRange (c : Nat) : Except (Error Unit Unit) Range :=
  match rangeTryFrom c with
  | some rg => .ok rg
  | none => .error .InvalidRange

/-- `LIS3DSH::get_datarate`: read `CTRL_REG4`, extract the ODR field,
decode it. -/
def get_datarate (r : Regs) : Except (Error Unit Unit) DataRate × List Ev :=
  let ctrl4 := regRead r Register.CTRL_REG4.read
  (codeToDataRate ((ctrl4 &&& ODR_MASK) >>> ODR_OFFSET), [.rd Register.CTRL_REG4.read])

/-- `LIS3DSH::get_range`: read `CTRL_REG5`, extract the FS field, decode
it. -/
def get_range (r : Regs) : Except (Error Unit Unit) Range × List Ev :=
  let ctrl5 := regRead r Register.CTRL_REG5.read
  (codeToRange ((ctrl5 &&& FS_MASK) >>> FS_OFFSET), [.rd Register.CTRL_REG5.read])

/-- `LIS3DSH::init` over the infallible register-file bus: write `STRESET`
to `CTRL_REG3`, wait 5 ms, clear `CTRL_REG3`, wait 5 ms, clear
`CTRL_REG5`, write `BDU` to `CTRL_REG4`, check `WHOAMI` against
`DEVICE_ID` (early `Err(WrongAddress)` on mismatch), then
`set_datarate(Hz_100)`, `set_range(G8)`, `enable_axis(true,true,true)`. -/
def init (r0 : Regs) : Except (Error Unit Unit) Regs × List Ev :=
  let r1 := regWrite r0 Register.CTRL_REG3.write STRESET
  let r2 := regWrite r1 Register.CTRL_REG3.write 0
  let r3 := regWrite r2 Register.CTRL_REG5.write 0
  let r4 := regWrite r3 Register.CTRL_REG4.write BDU
  let t0 : List Ev :=
    [.wr Register.CTRL_REG3.write STRESET, .delay 5,
     .wr Register.CTRL_REG3.write 0, .delay 5,
     .wr Register.CTRL_REG5.write 0,
     .wr Register.CTRL_REG4.write BDU]
  let idRes := get_device_id r4
  let t1 := t0 ++ idRes.2
  if idRes.1 ≠ DEVICE_ID then
    (.error .WrongAddress, t1)
  else
    let s1 := set_datarate r4 .Hz_100
    let s2 := set_range s1.1 .G8
    let s3 := enable_axis s2.1 true true true
    (.ok s3.1, t1 ++ s1.2 ++ s2.2 ++ s3.2)

/-! ## Raw sample path (`RawAccelerometer::accel_raw` in `src/lib.rs`) -/

/-- Error kinds of the `accelerometer` crate; `accel_raw` only ever
produces `Bus`. -/
inductive AccelErrorKind where
  | Bus | Device | Mode | Param
deriving DecidableEq, Repr

/-- Reinterpret a `u16` value as an `i16` (Rust `as i16`). -/
def asI16 (n : Nat) : Int :=
  if n % 65536 < 32768 then ((n % 65536 : Nat) : Int)
  else ((n % 65536 : Nat) : Int) - 65536

/-- The axis assembly of `accel_raw`:
`(((bytes[2k+1] as u16) << 8) | (bytes[2k] as u16)) as i16` per axis. -/
def rawFromBytes (bytes : List Nat) : Int × Int × Int :=
  let b := fun (i : Nat) => bytes.getD i 0 % 256
  (asI16 ((b 1 <<< 8) ||| b 0),
   asI16 ((b 3 <<< 8) ||| b 2),
   asI16 ((b 5 <<< 8) ||| b 4))

/-- `RawAccelerometer::accel_raw`, abstracted over the result of the
underlying `read_bytes`: any bus failure collapses to
`AccelerometerError::new(ErrorKind::Bus)`; on success the three axes are
assembled little-endian. -/
def accel_raw {E P : Type} (readBytesResult : Except (Error E P) (List Nat)) :
    Except AccelErrorKind (Int × Int × Int) :=
  match readBytesResult with
  | .error _ => .error .Bus
  | .ok bytes => .ok (rawFromBytes bytes)

/-- `accel_raw` over the `SPIBus` transport: 6-byte burst read at
`OUT_X_L.read()` with a zeroed buffer, then the assembly above. -/
def accel_raw_spi {E P : Type} (m : MockSpi E P) : Except AccelErrorKind (Int × Int × Int) :=
  accel_raw (SPIBus.read_bytes m Register.OUT_X_L.read [0, 0, 0, 0, 0, 0]).1

/-! ## Concrete fixtures -/

/-- A mock transaction in which every collaborator call succeeds and the
device shifts out `data`. -/
def okMock (data : List Nat) : MockSpi Nat Nat :=
  ⟨none, none, none, none, data⟩

/-- A mock transaction in which the payload phase (both `spi.write` and
`spi.transfer`) fails with transport error `7` and the chip-select
deassert fails with pin error `9`. -/
def bothFailMock : MockSpi Nat Nat := ⟨none, some 9, some 7, some 7, []⟩

/-- A mock transaction in which already the chip-select assert fails. -/
def busFailMock : MockSpi Nat Nat := ⟨some 3, none, none, none, []⟩

/-- Register file of a healthy device: `WHOAMI` holds `DEVICE_ID`, all
other registers zero. -/
def freshBus : Regs := fun a => if a = 0x0F then DEVICE_ID else 0

/-- Register file of an absent/wrong device: every register reads zero. -/
def zeroBus : Regs := fun _ => 0

/-- The transaction shapes of a full successful `init` run. -/
def initKeys : List EvKey :=
  [.wr 0x23, .delay 5, .wr 0x23, .delay 5, .wr 0x24, .wr 0x20,
   .rd 0x8F, .rd 0xA0, .wr 0x20, .rd 0xA4, .wr 0x24, .rd 0xA0, .wr 0x20]

end LIS3DSH

deriving instance DecidableEq for Except

namespace LIS3DSH

/-! ## Helper lemmas -/

/-- Combining a high byte shifted left by 8 with a low byte below 256 is
plain positional addition. -/
theorem shiftLeft_or_low (hi lo : Nat) (h : lo < 256) :
    (hi <<< 8) ||| lo = 256 * hi + lo := by
  rw [Nat.shiftLeft_eq]
  calc (hi * 2 ^ 8) ||| lo = (2 ^ 8 * hi) ||| lo := by rw [Nat.mul_comm]
    _ = 2 ^ 8 * hi + lo := (Nat.mul_add_lt_is_or h hi).symm
    _ = 256 * hi + lo := by norm_num

/-- The four setup writes of `init` do not touch `WHOAMI`. -/
theorem whoami_after_setup (r0 : Regs) :
    regRead (regWrite (regWrite (regWrite (regWrite r0
        Register.CTRL_REG3.write STRESET)
        Register.CTRL_REG3.write 0)
        Register.CTRL_REG5.write 0)
        Register.CTRL_REG4.write BDU)
      Register.WHOAMI.read = regRead r0 Register.WHOAMI.read := by
  have h1 : ((32 : Nat) &&& 127) % 128 = 32 := rfl
  have h2 : ((36 : Nat) &&& 127) % 128 = 36 := rfl
  have h3 : ((35 : Nat) &&& 127) % 128 = 35 := rfl
  simp [regRead, regWrite, Register.read, Register.write, Register.addr, h1, h2, h3]

/-! ## Claim theorems -/

/-- Claim C1: for every register address in the enumerated set, the read
command byte equals the address with bit 7 set (`addr | 0x80`) and the
write command byte equals the address with bit 7 cleared (`addr & 0x7F`);
both are pure functions of the register. -/
theorem C1_command_bytes :
    ∀ reg : Register, reg.read = reg.addr ||| 0x80 ∧ reg.write = reg.addr &&& 0x7F := by
  decide

/-- Claim C6: encoding a `Range` to its 3-bit code and decoding it back
returns the same `Range`, and likewise for every `DataRate` through its
4-bit code. -/
theorem C6_code_round_trip :
    (∀ rg : Range, codeToRange rg.bits = .ok rg) ∧
    (∀ d : DataRate, codeToDataRate d.bits = .ok d) := by
  decide

/-- Claim C7: over all 8 possible 3-bit codes, `codeToRange` yields
`InvalidRange` exactly outside the five documented range codes
`{0,1,2,3,4}`; over all 16 possible 4-bit codes, `codeToDataRate` yields
`InvalidDataRate` exactly outside the ten documented data-rate codes
`{0,…,9}`. -/
theorem C7_reject_undocumented_codes :
    (∀ c : Fin 8, codeToRange c.val = .error .InvalidRange ↔
      c.val ∉ ({0, 1, 2, 3, 4} : Finset Nat)) ∧
    (∀ c : Fin 16, codeToDataRate c.val = .error .InvalidDataRate ↔
      c.val ∉ ({0, 1, 2, 3, 4, 5, 6, 7, 8, 9} : Finset Nat)) := by
  decide

/-- Claim C8: for all 256 input bytes and all 8 axis-enable combinations,
the byte computed by `enable_axis` keeps bits 3–7 of the input unchanged
while its bits 0–2 are exactly the requested mask (bit 0 = X, bit 1 = Y,
bit 2 = Z). -/
theorem C8_axis_mask_frame :
    ∀ v : Fin 256, ∀ x y z : Bool,
      (∀ i : Fin 5,
        (enableAxisByte v.val x y z).testBit (i.val + 3) = v.val.testBit (i.val + 3)) ∧
      (enableAxisByte v.val x y z).testBit 0 = x ∧
      (enableAxisByte v.val x y z).testBit 1 = y ∧
      (enableAxisByte v.val x y z).testBit 2 = z := by
  decide

/-- Claim C9: for every `Range` and every byte read back from `CTRL_REG5`,
the byte `set_range` writes back carries `rangeToCode(range) << 3` in bits
3–5, has bit 0 cleared (4-wire mode), and keeps bits 1, 2, 6 and 7 of the
input unchanged; and `set_range` performs exactly the read followed by the
write of that byte. -/
theorem C9_set_range_rmw :
    (∀ v : Fin 256, ∀ rg : Range,
      (setRangeByte v.val rg &&& FS_MASK) = rg.bits <<< FS_OFFSET ∧
      (setRangeByte v.val rg).testBit 0 = false ∧
      (setRangeByte v.val rg).testBit 1 = v.val.testBit 1 ∧
      (setRangeByte v.val rg).testBit 2 = v.val.testBit 2 ∧
      (setRangeByte v.val rg).testBit 6 = v.val.testBit 6 ∧
      (setRangeByte v.val rg).testBit 7 = v.val.testBit 7) ∧
    (∀ r : Regs, ∀ rg : Range,
      (set_range r rg).2 =
        [.rd Register.CTRL_REG5.read,
         .wr Register.CTRL_REG5.write (setRangeByte (regRead r Register.CTRL_REG5.read) rg)]) := by
  exact ⟨by decide, fun r rg => rfl⟩

/-- Claim C2: once chip-select assert succeeded, every `SPIBus`
transaction (`read_bytes`, `read_register`, `write_register`) performs
exactly one chip-select assert and exactly one deassert call, for every
combination of transfer-phase and deassert outcomes. -/
theorem C2_chip_select_framing :
    ∀ (m : MockSpi Nat Nat) (reg val : Nat) (buf : List Nat),
      m.setLowResult = none →
      (countOf .setLow (SPIBus.read_bytes m reg buf).2 = 1 ∧
       countOf .setHigh (SPIBus.read_bytes m reg buf).2 = 1) ∧
      (countOf .setLow (SPIBus.read_register m reg).2 = 1 ∧
       countOf .setHigh (SPIBus.read_register m reg).2 = 1) ∧
      (countOf .setLow (SPIBus.write_register m reg val).2 = 1 ∧
       countOf .setHigh (SPIBus.write_register m reg val).2 = 1) := by
  rintro ⟨sl, sh, w, t, d⟩ reg val buf h
  obtain rfl : sl = none := h
  cases sh <;> cases w <;> cases t <;>
    simp [SPIBus.read_bytes, SPIBus.read_register, SPIBus.write_register, countOf]

/-- Witness for C2 at a concrete transaction whose transfer phase fails
but whose pin operations succeed. -/
theorem C2_chip_select_framing_witness :
    (MockSpi.mk (E := Nat) (P := Nat) none none (some 5) (some 6) []).setLowResult = none ∧
    (countOf .setLow
        (SPIBus.read_bytes (MockSpi.mk (E := Nat) (P := Nat) none none (some 5) (some 6) [])
          0xA8 [0, 0, 0, 0, 0, 0]).2 = 1 ∧
     countOf .setHigh
        (SPIBus.read_bytes (MockSpi.mk (E := Nat) (P := Nat) none none (some 5) (some 6) [])
          0xA8 [0, 0, 0, 0, 0, 0]).2 = 1) :=
  ⟨rfl, (C2_chip_select_framing _ 0xA8 0 [0, 0, 0, 0, 0, 0] rfl).1⟩

/-- Counterexample to claim C3 as stated: in a `read_register` and a
`write_register` transaction where both the payload transfer and the
chip-select deassert fail (`bothFailMock`: transport error 7, pin error
9), the caller receives the pin (deassert) error, not the payload error. -/
theorem C3_counterexample :
    (SPIBus.read_register bothFailMock 0x8F).1 = .error (.PinError 9) ∧
    (SPIBus.read_register bothFailMock 0x8F).1 ≠ .error (.CommErr 7) ∧
    (SPIBus.write_register bothFailMock 0x20 8).1 = .error (.PinError 9) ∧
    (SPIBus.write_register bothFailMock 0x20 8).1 ≠ .error (.CommErr 7) := by
  decide

/-- Claim C3 (amended): when the chip-select deassert fails, its pin error
is what the caller sees, even if the payload phase also failed; the
payload error is reported only when the deassert succeeded. -/
theorem C3_error_priority :
    ∀ (m : MockSpi Nat Nat) (reg val : Nat) (buf : List Nat) (e p : Nat),
      m.setLowResult = none →
      ((m.setHighResult = some p →
        (SPIBus.read_bytes m reg buf).1 = .error (.PinError p) ∧
        (SPIBus.read_register m reg).1 = .error (.PinError p) ∧
        (SPIBus.write_register m reg val).1 = .error (.PinError p)) ∧
       (m.setHighResult = none → m.transferResult = some e →
        (SPIBus.read_register m reg).1 = .error (.CommErr e)) ∧
       (m.setHighResult = none → m.writeResult = some e →
        (SPIBus.read_bytes m reg buf).1 = .error (.CommErr e) ∧
        (SPIBus.write_register m reg val).1 = .error (.CommErr e)) ∧
       (m.setHighResult = none → m.writeResult = none → m.transferResult = some e →
        (SPIBus.read_bytes m reg buf).1 = .error (.CommErr e))) := by
  rintro ⟨sl, sh, w, t, d⟩ reg val buf e p h
  obtain rfl : sl = none := h
  refine ⟨fun h1 => ?_, fun h1 h2 => ?_, fun h1 h2 => ?_, fun h1 h2 h3 => ?_⟩ <;>
    obtain rfl : _ = _ := h1 <;>
    first
    | (obtain rfl : _ = _ := h2
       first
       | (obtain rfl : _ = _ := h3
          simp [SPIBus.read_bytes, SPIBus.read_register, SPIBus.write_register])
       | simp [SPIBus.read_bytes, SPIBus.read_register, SPIBus.write_register])
    | simp [SPIBus.read_bytes, SPIBus.read_register, SPIBus.write_register]

/-- Witness for C3 (amended) at `bothFailMock`: both phases fail and the
pin error 9 is returned by `read_register`. -/
theorem C3_error_priority_witness :
    bothFailMock.setLowResult = none ∧ bothFailMock.setHighResult = some 9 ∧
    (SPIBus.read_register bothFailMock 0x8F).1 = .error (.PinError 9) :=
  ⟨rfl, rfl,
    (((C3_error_priority bothFailMock 0x8F 8 [0, 0, 0, 0, 0, 0] 7 9 rfl).1) rfl).2.1⟩

/-- Claim C4: on any device whose identity register holds `DEVICE_ID`,
`init` succeeds and performs exactly the documented transactions in strict
order (reset write, 5 ms delay, reset clear, 5 ms delay, `CTRL_REG5`
cleared, `BDU` set, identity read, then the 100 Hz / ±8g / all-axes
read-modify-write pairs); on any device whose identity register holds any
other value, `init` fails with `WrongAddress` right after the identity
read, performing no further register access; on the fresh device the
written bytes themselves are the documented constants (`BDU = 8`,
`ODR = 6` giving `0x68`, `FS = 3` giving `0x18`, axes `0x6F`). -/
theorem C4_init_sequence :
    (∀ r0 : Regs, regRead r0 Register.WHOAMI.read = DEVICE_ID →
      exceptOk (init r0).1 = true ∧ (init r0).2.map Ev.key = initKeys) ∧
    (∀ r0 : Regs, regRead r0 Register.WHOAMI.read ≠ DEVICE_ID →
      (init r0).1 = .error .WrongAddress ∧
      (init r0).2 = [.wr 0x23 STRESET, .delay 5, .wr 0x23 0, .delay 5,
                     .wr 0x24 0, .wr 0x20 BDU, .rd 0x8F]) ∧
    (init freshBus).2 =
      [.wr 0x23 1, .delay 5, .wr 0x23 0, .delay 5, .wr 0x24 0, .wr 0x20 8,
       .rd 0x8F, .rd 0xA0, .wr 0x20 0x68, .rd 0xA4, .wr 0x24 0x18,
       .rd 0xA0, .wr 0x20 0x6F] := by
  refine ⟨fun r0 h => ?_, fun r0 h => ?_, by decide⟩
  · rw [init.eq_1]
    simp only [get_device_id, whoami_after_setup, h]
    simp [init, exceptOk, set_datarate, set_range, enable_axis, get_device_id,
      initKeys, Ev.key, Register.read, Register.write, Register.addr]
    all_goals decide
  · rw [init.eq_1]
    have h143 : regRead r0 143 ≠ DEVICE_ID := h
    simp only [get_device_id, whoami_after_setup]
    simp [h143, Register.read, Register.write, Register.addr]
    all_goals decide

/-- Witness for C4: the success branch at `freshBus` and the
`WrongAddress` branch at `zeroBus` (identity byte 0). -/
theorem C4_init_sequence_witness :
    (regRead freshBus Register.WHOAMI.read = DEVICE_ID ∧
     exceptOk (init freshBus).1 = true ∧ (init freshBus).2.map Ev.key = initKeys) ∧
    (regRead zeroBus Register.WHOAMI.read ≠ DEVICE_ID ∧
     (init zeroBus).1 = .error .WrongAddress) :=
  ⟨⟨rfl, C4_init_sequence.1 freshBus rfl⟩,
   ⟨by decide, (C4_init_sequence.2.1 zeroBus (by decide)).1⟩⟩

/-- Claim C5: `accel_raw` assembles each axis little-endian (low byte
first) as a signed 16-bit value from the 6 bytes of the burst read at
`OUT_X_L`; in particular bytes `[0x34, 0x12, 0x00, 0x00, 0xCD, 0xAB]`
yield X = 0x1234, Y = 0, and Z = 0xABCD read as signed (−21555). -/
theorem C5_little_endian :
    (∀ a b c d e f : Fin 256,
      accel_raw (E := Nat) (P := Nat) (.ok [a.val, b.val, c.val, d.val, e.val, f.val]) =
        .ok (asI16 (256 * b.val + a.val), asI16 (256 * d.val + c.val),
             asI16 (256 * f.val + e.val))) ∧
    accel_raw_spi (okMock [0x34, 0x12, 0x00, 0x00, 0xCD, 0xAB]) =
      .ok (0x1234, 0, -21555) := by
  refine ⟨fun a b c d e f => ?_, by decide⟩
  simp only [accel_raw, rawFromBytes, List.getD, List.get?, Option.getD]
  rw [Nat.mod_eq_of_lt a.isLt, Nat.mod_eq_of_lt b.isLt, Nat.mod_eq_of_lt c.isLt,
    Nat.mod_eq_of_lt d.isLt, Nat.mod_eq_of_lt e.isLt, Nat.mod_eq_of_lt f.isLt,
    shiftLeft_or_low _ _ a.isLt, shiftLeft_or_low _ _ c.isLt,
    shiftLeft_or_low _ _ e.isLt]

/-- Claim C10: any failure of the underlying burst read — transport or
chip-select, whatever its payload — makes `accel_raw` return the generic
`Bus`-kind accelerometer error; the typed `CommErr` / `PinError`
distinction is not propagated. -/
theorem C10_bus_error_collapse :
    (∀ err : Error Nat Nat,
      accel_raw (.error err) = (.error .Bus : Except AccelErrorKind (Int × Int × Int))) ∧
    (∀ (m : MockSpi Nat Nat) (err : Error Nat Nat),
      (SPIBus.read_bytes m Register.OUT_X_L.read [0, 0, 0, 0, 0, 0]).1 = .error err →
      accel_raw_spi m = .error .Bus) := by
  refine ⟨fun err => rfl, fun m err h => ?_⟩
  simp [accel_raw_spi, h, accel_raw]

/-- Witness for C10: a transaction whose chip-select assert fails with pin
error 3 makes the burst read fail and `accel_raw` report `Bus`. -/
theorem C10_bus_error_collapse_witness :
    (SPIBus.read_bytes busFailMock Register.OUT_X_L.read [0, 0, 0, 0, 0, 0]).1 =
      .error (.PinError 3) ∧
    accel_raw_spi busFailMock = .error .Bus :=
  ⟨rfl, C10_bus_error_collapse.2 busFailMock (.PinError 3) rfl⟩

end LIS3DSH
